import Mathlib

/-!
Verification development for the AlphaPy `plots` module (src/plots.py).

The module's observable behaviour is embedded shallowly:

* Python exceptions become the `PyError` sum; a function that can raise
  returns `Except PyError α`.
* The only side effect of interest is the list of file paths written
  (`write_plot`'s `savefig`/`save` calls); a routine's result of type
  `Except PyError (List String)` carries the paths written, in order.
* Rendering calls (matplotlib/seaborn/bokeh drawing primitives), estimator
  fitting, and the statistical library calls are pure no-ops for the file
  writes; they are kept as comments citing the source lines.
* `model.specs` (a Python dict with a fixed set of recognized keys) is
  embedded as the typed record `Specs`; attribute lookups on the model
  object are record projections.
-/

set_option autoImplicit false

/-- Modelled from the spec: the `globs` module (not under src/) supplies the
fixed separators; the spec's path formula `baseDir / project / filename` and
filename formula `category + "_" + tag + ".png"` fix `SSEP = "/"`. -/
def SSEP : String := "/"

/-- Modelled from the spec: the `globs` module (not under src/) supplies the
fixed separators; the spec's filename/tag formulas fix `USEP = "_"`. -/
def USEP : String := "_"

/-- Modelled from the spec: `globs.BSEP`, used only inside plot titles
(never in file paths); the titles join words with blanks. -/
def BSEP : String := " "

/-- Python `sep.join(parts)`: the elements of `parts` interleaved with
`sep`. -/
def pyJoin (sep : String) : List String → String
  | [] => ""
  | [a] => a
  | a :: rest => a ++ sep ++ pyJoin sep rest

/-- Modelled from the spec: `estimators.ModelType` (the `estimators` module is
not under src/); the module only ever distinguishes
`ModelType.classification` from everything else, so one non-classification
value suffices. -/
inductive ModelType where
  | classification
  | regression
deriving DecidableEq

/-- The Python exceptions the embedded fragment can raise. -/
inductive PyError where
  /-- `TypeError(msg)` — raised by `get_partition_data` (line 99). -/
  | typeError (msg : String)
  /-- A `ValueError` raised inside an external library call, such as
  `min(prange)` on an empty sequence (line 548). -/
  | valueError (msg : String)
  /-- `ValueError("Unsupported data visualization library: %s", vizlib)` —
  raised by `write_plot` for `plotly` (line 169). -/
  | valueErrorUnsupported (vizlib : String)
  /-- `ValueError("Unrecognized data visualization library: %s", vizlib)` —
  raised by `write_plot` for any other unknown backend (line 171). -/
  | valueErrorUnrecognized (vizlib : String)
  /-- `AttributeError` from calling a method on `None`
  (e.g. `plot.savefig` when no handle was passed to a seaborn write). -/
  | attributeError (attr : String)
  /-- `NameError(name)` — `plot_boundary` references globals that are never
  defined or imported (`classifiers` at line 793). -/
  | nameError (name : String)
deriving DecidableEq

/-- The string argument carried by a `write_plot` backend-dispatch
`ValueError`, i.e. the offending `vizlib` value named in the message. -/
def PyError.vizlibNamed : PyError → Option String
  | .valueErrorUnsupported v => some v
  | .valueErrorUnrecognized v => some v
  | _ => none

/-- The recognized keys of the `model.specs` dict (spec §6), typed. -/
structure Specs where
  calibration_plot : Bool
  confusion_matrix : Bool
  importances : Bool
  learning_curve : Bool
  roc_curve : Bool
  base_dir : String
  project : String
  model_type : ModelType
  cv_folds : Nat
  n_jobs : Nat
  scorer : String
  seed : Nat
  shuffle : Bool
  split : ℚ
  verbosity : Nat
deriving DecidableEq

/-- The model container (owned by the caller; this module only reads it).
Feature matrices are rows of rationals and labels are rationals; the plot
routines never inspect the numbers, only pass them on, so any inhabited
carrier works. `importances` is the per-algorithm feature-importance dict:
`none` models a missing key (Python `KeyError` on lookup). -/
structure Model where
  specs : Specs
  algolist : List String
  importances : String → Option (List ℚ)
  X_train : List (List ℚ)
  y_train : List ℚ
  X_test : List (List ℚ)
  y_test : List ℚ

/-- `file_only = ''.join([plot_type, USEP, tag, '.png'])` (line 154). -/
def file_only (plot_type tag : String) : String :=
  pyJoin "" [plot_type, USEP, tag, ".png"]

/-- `file_all = SSEP.join([base_dir, project, file_only])` (lines 149-155). -/
def file_all (model : Model) (plot_type tag : String) : String :=
  pyJoin SSEP [model.specs.base_dir, model.specs.project, file_only plot_type tag]

/-- `write_plot` (lines 142-171).  The `.ok` payload is the list of paths
written; every branch that raises writes nothing.  The `plot` handle is
abstract (`Option Unit`): `None` in Python is `none` here, and the
seaborn/bokeh branches call a method on it, so a missing handle there is an
`AttributeError`. -/
def write_plot (model : Model) (vizlib : String) (plot : Option Unit)
    (plot_type tag : String) : Except PyError (List String) :=
  let fa := file_all model plot_type tag
  if vizlib = "matplotlib" then
    -- plt.tight_layout(); plt.savefig(file_all)  (lines 162-163)
    Except.ok [fa]
  else if vizlib = "seaborn" then
    -- plot.savefig(file_all)  (line 165)
    match plot with
    | some _ => Except.ok [fa]
    | none => Except.error (PyError.attributeError "savefig")
  else if vizlib = "bokeh" then
    -- plot.save(file_all)  (line 167)
    match plot with
    | some _ => Except.ok [fa]
    | none => Except.error (PyError.attributeError "save")
  else if vizlib = "plotly" then
    Except.error (PyError.valueErrorUnsupported vizlib)
  else
    Except.error (PyError.valueErrorUnrecognized vizlib)

/-- `get_partition_data` (lines 87-101). -/
def get_partition_data (model : Model) (partition : String) :
    Except PyError (List (List ℚ) × List ℚ) :=
  if partition = "train" then
    Except.ok (model.X_train, model.y_train)
  else if partition = "test" then
    Except.ok (model.X_test, model.y_test)
  else
    Except.error (PyError.typeError "Partition must be train or test")

/-- The per-algorithm save loop shared verbatim by `plot_roc_curve`
(lines 407-448), `plot_confusion_matrix` (466-491) and
`plot_learning_curve` (330-365): for each algorithm the
routine renders (no writes) and then calls
`write_plot(model, 'matplotlib', None, plot_type, USEP.join([partition, algo]))`. -/
def algo_loop (model : Model) (plot_type partition : String) :
    List String → Except PyError (List String)
  | [] => Except.ok []
  | algo :: rest => do
    let w ← write_plot model "matplotlib" none plot_type (pyJoin USEP [partition, algo])
    let ws ← algo_loop model plot_type partition rest
    pure (w ++ ws)

/-- `plot_calibration` (lines 178-237).  One shared figure is drawn for all
algorithms (the loop at lines 212-226 only renders), then a single
`write_plot(model, 'matplotlib', None, 'calibration', partition)` at
line 237. -/
def plot_calibration (model : Model) (partition : String) :
    Except PyError (List String) :=
  if model.specs.model_type ≠ ModelType.classification then
    -- logged no-op, `return None`  (lines 194-196)
    Except.ok []
  else do
    let _xy ← get_partition_data model partition
    -- per-algorithm rendering into the shared figure (lines 207-235): no writes
    write_plot model "matplotlib" none "calibration" partition

/-- The body of `plot_importance`'s try-block for one algorithm
(lines 267-286): the `model.importances[algo]` lookup (`KeyError` when
absent) and the top-10 ranking loop (`IndexError` when the vector has
fewer than `n_top = 10` entries) are both caught by the bare `except:`,
which logs and skips the algorithm; otherwise one file is written. -/
def importance_loop (model : Model) (partition : String) : List String → List String
  | [] => []
  | algo :: rest =>
    (match model.importances algo with
     | none => []
     | some imps =>
       if 10 ≤ imps.length then
         [file_all model "feature_importance" (pyJoin USEP [partition, algo])]
       else []) ++ importance_loop model partition rest

/-- `plot_importance` (lines 244-286). -/
def plot_importance (model : Model) (partition : String) :
    Except PyError (List String) := do
  let _xy ← get_partition_data model partition
  pure (importance_loop model partition model.algolist)

/-- `plot_learning_curve` (lines 293-365): no model-type guard; reads the
cross-validation specs (lines 309-315, no effect on the writes), then one
`learning_curve` file per algorithm tagged `partition_algo`. -/
def plot_learning_curve (model : Model) (partition : String) :
    Except PyError (List String) := do
  let _xy ← get_partition_data model partition
  algo_loop model "learning_curve" partition model.algolist

/-- `plot_roc_curve` (lines 372-448): classification guard (381-383), then
the cross-validated ROC computation per fold (modelled separately below as
`code_mean_tpr`/`code_mean_auc`, lines 412-435 — it renders but writes
nothing), then one `roc_curve` file per algorithm tagged `partition_algo`
(lines 447-448). -/
def plot_roc_curve (model : Model) (partition : String) :
    Except PyError (List String) :=
  if model.specs.model_type ≠ ModelType.classification then
    -- logged no-op, `return None`  (lines 381-383)
    Except.ok []
  else do
    let _xy ← get_partition_data model partition
    algo_loop model "roc_curve" partition model.algolist

/-- `plot_confusion_matrix` (lines 455-491): no model-type guard; one
`confusion` file per algorithm tagged `partition_algo` (lines 490-491). -/
def plot_confusion_matrix (model : Model) (partition : String) :
    Except PyError (List String) := do
  let _xy ← get_partition_data model partition
  algo_loop model "confusion" partition model.algolist

/-- The per-algorithm loop of `plot_validation_curve` (lines 532-564): for
each algorithm, the rendering evaluates `min(prange)` and `max(prange)`
(line 548), which raise `ValueError` when `prange` is empty — before the
`write_plot` at line 564; otherwise one `validation_curve` file is written
with tag `partition_algo` (lines 563-564). -/
def validation_loop (model : Model) (partition : String) (prange : List ℚ) :
    List String → Except PyError (List String)
  | [] => Except.ok []
  | _algo :: rest => do
    if prange = [] then
      Except.error (PyError.valueError "min() arg is an empty sequence")
    else do
      let w ← write_plot model "matplotlib" none "validation_curve"
        (pyJoin USEP [partition, _algo])
      let ws ← validation_loop model partition prange rest
      pure (w ++ ws)

/-- `plot_validation_curve` (lines 498-564).  `pname` feeds only the
rendering; `prange` additionally feeds the axis bounds at line 548, whose
`min`/`max` raise on an empty range. -/
def plot_validation_curve (model : Model) (partition pname : String)
    (prange : List ℚ) : Except PyError (List String) := do
  let _xy ← get_partition_data model partition
  validation_loop model partition prange model.algolist

/-- `plot_boundary` (lines 769-853): classification guard (778-780), then
`get_partition_data` (784), then line 793 reads the global `classifiers`,
which is never defined or imported — a `NameError` before any write. -/
def plot_boundary (model : Model) (partition : String) (f1 f2 : Nat) :
    Except PyError (List String) :=
  if model.specs.model_type ≠ ModelType.classification then
    -- logged no-op, `return None`  (lines 778-780)
    Except.ok []
  else do
    let _xy ← get_partition_data model partition
    Except.error (PyError.nameError "classifiers")

/-- Result of `plot_scatter`: the final state of the caller-supplied
`features` list (mutated in place by `features.append(target)` at
line 585), the selected frame `data[features]` (line 586, modelled as the
selected column list), and the paths written. -/
structure ScatterResult where
  features : List String
  df : List (String × List ℚ)
  writes : List String
deriving DecidableEq

/-- `plot_scatter` (lines 576-595).  `data` is the column map of the input
frame. -/
def plot_scatter (model : Model) (data : String → List ℚ)
    (features : List String) (target tag : String) :
    Except PyError ScatterResult :=
  -- features.append(target)  (line 585) — mutates the caller's list
  let features := features ++ [target]
  -- df = data[features]  (line 586)
  let df := features.map (fun c => (c, data c))
  do
    let w ← write_plot model "seaborn" (some ()) "scatter_plot" tag
    pure ⟨features, df, w⟩

/-- Marker for which plot routine `generate_plots` invokes. -/
inductive PlotCall where
  | calibration
  | confusion
  | roc
  | importance
  | learning
deriving DecidableEq

/-- The call trace of `generate_plots` (lines 125-135), transliterating its
if-structure: which routines are invoked, in order. -/
def generate_plots_calls (model : Model) (partition : String) : List PlotCall :=
  (if model.specs.calibration_plot then [PlotCall.calibration] else [])
  ++ (if model.specs.confusion_matrix then [PlotCall.confusion] else [])
  ++ (if model.specs.roc_curve then [PlotCall.roc] else [])
  ++ (if partition = "train" then
        (if model.specs.importances then [PlotCall.importance] else [])
        ++ (if model.specs.learning_curve then [PlotCall.learning] else [])
      else [])

/-- `generate_plots` (lines 108-135): the flag-gated calls in source order,
with the feature-importance and learning-curve calls further gated on
`partition == 'train'` (line 131). -/
def generate_plots (model : Model) (partition : String) :
    Except PyError (List String) := do
  let w1 ← if model.specs.calibration_plot then plot_calibration model partition
           else pure []
  let w2 ← if model.specs.confusion_matrix then plot_confusion_matrix model partition
           else pure []
  let w3 ← if model.specs.roc_curve then plot_roc_curve model partition
           else pure []
  let w4 ← if partition = "train" then do
        let a ← if model.specs.importances then plot_importance model partition
                else pure []
        let b ← if model.specs.learning_curve then plot_learning_curve model partition
                else pure []
        pure (a ++ b)
      else pure []
  pure (w1 ++ w2 ++ w3 ++ w4)

/-!
The mean-ROC computation inside `plot_roc_curve`'s per-algorithm loop
(lines 412-435), over exact rationals.  The length-100 numpy arrays are
functions `Fin 100 → ℚ`; the in-place assignments `mean_tpr[0] = 0.0` and
`mean_tpr[-1] = 1.0` are `Function.update` at indices 0 and 99.
-/

/-- One cross-validation fold's ROC curve as returned by
`sklearn.metrics.roc_curve`: increasing false-positive rates with their
true-positive rates. -/
structure ROCFold where
  fpr : List ℚ
  tpr : List ℚ
deriving DecidableEq

/-- `mean_fpr = np.linspace(0, 1, 100)` (line 413): the fixed 100-point
grid `k / 99`. -/
def mean_fpr : Fin 100 → ℚ := fun k => (k : ℚ) / 99

/-- `scipy.interp` = `numpy.interp`: piecewise-linear interpolation through
the points `(x_i, f_i)` (with increasing `x_i`), clamped to the first/last
value outside their range. -/
def interp : List (ℚ × ℚ) → ℚ → ℚ
  | [], _ => 0
  | [(_, f1)], _ => f1
  | (x1, f1) :: (x2, f2) :: rest, x =>
    if x ≤ x1 then f1
    else if x ≤ x2 then f1 + (f2 - f1) * (x - x1) / (x2 - x1)
    else interp ((x2, f2) :: rest) x

/-- `interp(mean_fpr, fpr, tpr)` (line 426): one fold's ROC curve
interpolated onto the fixed grid. -/
def foldInterp (f : ROCFold) : Fin 100 → ℚ :=
  fun k => interp (f.fpr.zip f.tpr) (mean_fpr k)

/-- One iteration of the fold loop on `mean_tpr`:
`mean_tpr += interp(mean_fpr, fpr, tpr); mean_tpr[0] = 0.0`
(lines 426-427). -/
def rocStep (mean_tpr : Fin 100 → ℚ) (f : ROCFold) : Fin 100 → ℚ :=
  Function.update (fun k => mean_tpr k + foldInterp f k) 0 0

/-- `sklearn.metrics.auc(x, y)` for increasing `x`: the trapezoidal rule
`np.trapz(y, x)`. -/
def auc_trapz (x y : Fin 100 → ℚ) : ℚ :=
  ∑ i : Fin 99, (x i.succ - x i.castSucc) * (y i.succ + y i.castSucc) / 2

/-- The code's mean true-positive-rate curve: `mean_tpr = 0.0` (line 412),
the fold loop (lines 419-430), then `mean_tpr /= cv.get_n_splits(X, y)`
(line 433, `n` = the configured fold count) and `mean_tpr[-1] = 1.0`
(line 434). -/
def code_mean_tpr (folds : List ROCFold) (n : Nat) : Fin 100 → ℚ :=
  Function.update (fun k => (folds.foldl rocStep (fun _ => 0)) k / (n : ℚ)) 99 1

/-- `mean_auc = auc(mean_fpr, mean_tpr)` (line 435), computed after the
division and the endpoint assignments. -/
def code_mean_auc (folds : List ROCFold) (n : Nat) : ℚ :=
  auc_trapz mean_fpr (code_mean_tpr folds n)

/-- The spec's wording of the same computation (refinement comparison):
sum the interpolated true-positive rates across folds, divide by the
number of folds, then force the first point to 0.0 and the last to 1.0. -/
def spec_mean_tpr (folds : List ROCFold) : Fin 100 → ℚ :=
  Function.update (Function.update
    (fun k => ((folds.map (fun f => foldInterp f k)).sum) / (folds.length : ℚ))
    0 0) 99 1

/-!  Concrete model instances used by the closed scenario theorems and the
witnesses. -/

/-- A length-10 importance vector for the `svm` algorithm. -/
def svmImportances : List ℚ := [10, 9, 8, 7, 6, 5, 4, 3, 2, 1]

/-- The spec §8 scenario model: `algolist = ["svm", "rf"]`,
`roc_curve` enabled, classification, `base_dir = "/tmp/out"`,
`project = "proj1"`, `cv_folds = 3`, `seed = 0`, `shuffle = true`,
`split = 0.2`; `rf` has no feature-importance vector. -/
def m7 : Model :=
  { specs :=
      { calibration_plot := true
        confusion_matrix := true
        importances := true
        learning_curve := true
        roc_curve := true
        base_dir := "/tmp/out"
        project := "proj1"
        model_type := ModelType.classification
        cv_folds := 3
        n_jobs := 1
        scorer := "roc_auc"
        seed := 0
        shuffle := true
        split := 1 / 5
        verbosity := 0 }
    algolist := ["svm", "rf"]
    importances := fun a => if a = "svm" then some svmImportances else none
    X_train := [[0], [1]]
    y_train := [0, 1]
    X_test := [[0], [1]]
    y_test := [0, 1] }

/-- The same container with a non-classification model type. -/
def mReg : Model :=
  { m7 with specs := { m7.specs with model_type := ModelType.regression } }

/-- The same container with a length-10 importance vector stored for every
algorithm. -/
def m6 : Model :=
  { m7 with importances := fun _ => some svmImportances }

/-!  Helper lemmas. -/

/-- The written path, flattened to plain concatenation. -/
theorem file_all_eq (model : Model) (plot_type tag : String) :
    file_all model plot_type tag =
      model.specs.base_dir ++ SSEP ++ model.specs.project ++ SSEP
        ++ plot_type ++ USEP ++ tag ++ ".png" := by
  simp [file_all, file_only, pyJoin, String.append_assoc]

/-- Bind on a successful `Except` computation. -/
theorem ok_bind {ε α β : Type} (a : α) (f : α → Except ε β) :
    (Except.ok a >>= f : Except ε β) = f a := rfl

theorem algo_loop_ok (model : Model) (plot_type partition : String) :
    ∀ l : List String,
      algo_loop model plot_type partition l =
        Except.ok (l.map (fun algo =>
          file_all model plot_type (pyJoin USEP [partition, algo]))) := by
  intro l
  induction l with
  | nil => rfl
  | cons a as ih =>
    simp [algo_loop, write_plot, ih, ok_bind]

/-- With a nonempty hyperparameter range, the validation-curve loop writes
one tagged file per algorithm. -/
theorem validation_loop_ok (model : Model) (partition : String)
    (prange : List ℚ) (hpr : prange ≠ []) :
    ∀ l : List String,
      validation_loop model partition prange l =
        Except.ok (l.map (fun algo =>
          file_all model "validation_curve" (pyJoin USEP [partition, algo]))) := by
  intro l
  induction l with
  | nil => rfl
  | cons a as ih =>
    rw [validation_loop, if_neg hpr]
    simp [write_plot, ih, ok_bind]

/-- When every algorithm in the list has an importance vector with at least
the `n_top = 10` ranked entries, the importance loop writes one tagged file
per algorithm. -/
theorem importance_loop_all_present (model : Model) (partition : String) :
    ∀ l : List String,
      (∀ g ∈ l, ∃ v, model.importances g = some v ∧ 10 ≤ v.length) →
      importance_loop model partition l =
        l.map (fun g =>
          file_all model "feature_importance" (pyJoin USEP [partition, g])) := by
  intro l
  induction l with
  | nil => intro _; rfl
  | cons g rest ih =>
    intro hl
    obtain ⟨v, hv, hvlen⟩ := hl g (List.mem_cons_self g rest)
    have hrest := fun x hx => hl x (List.mem_cons_of_mem g hx)
    simp only [importance_loop, hv, if_pos hvlen, List.singleton_append,
      ih hrest, List.map_cons]

/-!  Claim theorems. -/

/-- C1: for every backend string outside the three supported values
`matplotlib`/`seaborn`/`bokeh`, `write_plot` fails with a `ValueError`
naming the offending value — `Unsupported` for the recognized-but-unwired
`plotly`, `Unrecognized` otherwise — and writes no file (in this embedding
a write happens only on an `Except.ok` result). -/
theorem write_plot_unsupported_backend (model : Model) (vizlib : String)
    (plot : Option Unit) (plot_type tag : String)
    (h : vizlib ∉ ["matplotlib", "seaborn", "bokeh"]) :
    (∃ e, write_plot model vizlib plot plot_type tag = Except.error e
        ∧ e.vizlibNamed = some vizlib)
    ∧ ∀ ws, write_plot model vizlib plot plot_type tag ≠ Except.ok ws := by
  simp only [List.mem_cons, List.not_mem_nil, or_false, not_or] at h
  obtain ⟨h1, h2, h3⟩ := h
  unfold write_plot
  rw [if_neg h1, if_neg h2, if_neg h3]
  by_cases h4 : vizlib = "plotly"
  · rw [if_pos h4]
    exact ⟨⟨PyError.valueErrorUnsupported vizlib, rfl, rfl⟩, fun ws => by simp⟩
  · rw [if_neg h4]
    exact ⟨⟨PyError.valueErrorUnrecognized vizlib, rfl, rfl⟩, fun ws => by simp⟩

/-- Witness for C1 at the concrete backend `plotly`. -/
theorem write_plot_unsupported_backend_witness :
    ("plotly" ∉ ["matplotlib", "seaborn", "bokeh"])
    ∧ ((∃ e, write_plot m7 "plotly" none "calibration" "test" = Except.error e
          ∧ e.vizlibNamed = some "plotly")
       ∧ ∀ ws, write_plot m7 "plotly" none "calibration" "test" ≠ Except.ok ws) :=
  ⟨by decide,
   write_plot_unsupported_backend m7 "plotly" none "calibration" "test" (by decide)⟩

/-- C2: for every model and every supported backend, `write_plot` writes to
the deterministic path `base_dir / project / (category ++ "_" ++ tag ++
".png")`; the path is the same for all three backends and `category`/`tag`
enter it verbatim (plain concatenation, no sanitization). -/
theorem write_plot_path_deterministic (model : Model) (category tag : String) :
    write_plot model "matplotlib" none category tag =
      Except.ok [model.specs.base_dir ++ SSEP ++ model.specs.project ++ SSEP
        ++ category ++ USEP ++ tag ++ ".png"]
    ∧ write_plot model "seaborn" (some ()) category tag =
      Except.ok [model.specs.base_dir ++ SSEP ++ model.specs.project ++ SSEP
        ++ category ++ USEP ++ tag ++ ".png"]
    ∧ write_plot model "bokeh" (some ()) category tag =
      Except.ok [model.specs.base_dir ++ SSEP ++ model.specs.project ++ SSEP
        ++ category ++ USEP ++ tag ++ ".png"] := by
  refine ⟨?_, ?_, ?_⟩ <;> simp [write_plot, file_all_eq]

/-- C3: `get_partition_data` returns exactly the stored pair for `train`,
exactly the stored pair for `test`, and raises `TypeError` immediately on
any other partition string.  The function only reads model attributes (the
embedding is pure), so the model is unchanged by construction. -/
theorem get_partition_data_spec (model : Model) :
    get_partition_data model "train" = Except.ok (model.X_train, model.y_train)
    ∧ get_partition_data model "test" = Except.ok (model.X_test, model.y_test)
    ∧ ∀ partition, partition ≠ "train" → partition ≠ "test" →
        get_partition_data model partition =
          Except.error (PyError.typeError "Partition must be train or test") := by
  refine ⟨rfl, rfl, fun partition h1 h2 => ?_⟩
  unfold get_partition_data
  rw [if_neg h1, if_neg h2]

/-- Witness for C3 at a concrete model and the invalid partition
`"validate"`. -/
theorem get_partition_data_spec_witness :
    get_partition_data m7 "train" = Except.ok (m7.X_train, m7.y_train)
    ∧ get_partition_data m7 "validate" =
        Except.error (PyError.typeError "Partition must be train or test") :=
  ⟨(get_partition_data_spec m7).1,
   (get_partition_data_spec m7).2.2 "validate" (by decide) (by decide)⟩

/-- C4: on a model whose type is not classification, each classification-gated
routine — `plot_calibration`, `plot_roc_curve`, `plot_boundary` — returns
normally having written nothing. -/
theorem classification_gated_noop (model : Model) (partition : String)
    (f1 f2 : Nat) (h : model.specs.model_type ≠ ModelType.classification) :
    plot_calibration model partition = Except.ok []
    ∧ plot_roc_curve model partition = Except.ok []
    ∧ plot_boundary model partition f1 f2 = Except.ok [] := by
  refine ⟨?_, ?_, ?_⟩
  · unfold plot_calibration; rw [if_pos h]
  · unfold plot_roc_curve; rw [if_pos h]
  · unfold plot_boundary; rw [if_pos h]

/-- Witness for C4 at a concrete regression model. -/
theorem classification_gated_noop_witness :
    mReg.specs.model_type ≠ ModelType.classification
    ∧ (plot_calibration mReg "test" = Except.ok []
       ∧ plot_roc_curve mReg "test" = Except.ok []
       ∧ plot_boundary mReg "test" 0 1 = Except.ok []) :=
  ⟨by decide, classification_gated_noop mReg "test" 0 1 (by decide)⟩

/-- On an algorithm list in which every algorithm other than `a` has an
importance vector of length at least 10, the importance loop skips exactly
the occurrences of `a`. -/
theorem importance_loop_filter (model : Model) (partition a : String)
    (ha : model.importances a = none) :
    ∀ l : List String,
      (∀ g ∈ l, g ≠ a → ∃ v, model.importances g = some v ∧ 10 ≤ v.length) →
      importance_loop model partition l =
        (l.filter (fun g => g != a)).map (fun g =>
          file_all model "feature_importance" (pyJoin USEP [partition, g])) := by
  intro l
  induction l with
  | nil => intro _; rfl
  | cons g rest ih =>
    intro hl
    have hrest : ∀ g ∈ rest, g ≠ a → ∃ v, model.importances g = some v ∧ 10 ≤ v.length :=
      fun x hx => hl x (List.mem_cons_of_mem g hx)
    by_cases hg : g = a
    · subst hg
      simp only [importance_loop, ha, List.nil_append, ih hrest]
      simp [List.filter_cons]
    · obtain ⟨v, hv, hvlen⟩ := hl g (List.mem_cons_self g rest) hg
      simp only [importance_loop, hv, if_pos hvlen, List.singleton_append, ih hrest]
      simp [List.filter_cons, hg]

/-- C5: when one algorithm's feature-importance vector is absent,
`plot_importance` still returns normally (no exception), writes no file for
that algorithm, and writes the usual per-algorithm file for every other
algorithm (each of which has a stored importance vector with at least the
`n_top = 10` ranked entries). -/
theorem plot_importance_skips_absent (model : Model) (partition a : String)
    (hp : partition = "train" ∨ partition = "test")
    (ha : model.importances a = none)
    (ho : ∀ g ∈ model.algolist, g ≠ a →
        ∃ v, model.importances g = some v ∧ 10 ≤ v.length) :
    plot_importance model partition =
      Except.ok ((model.algolist.filter (fun g => g != a)).map (fun g =>
        file_all model "feature_importance" (pyJoin USEP [partition, g]))) := by
  have hloop := importance_loop_filter model partition a ha model.algolist ho
  rcases hp with hp | hp <;> subst hp <;>
    simp [plot_importance, get_partition_data, ok_bind, hloop]

/-- Witness for C5: in `m7`, `rf` has no importance vector and `svm` has a
length-10 one; only the `svm` file is written and no error escapes. -/
theorem plot_importance_skips_absent_witness :
    m7.importances "rf" = none
    ∧ plot_importance m7 "test" =
        Except.ok ((m7.algolist.filter (fun g => g != "rf")).map (fun g =>
          file_all m7 "feature_importance" (pyJoin USEP ["test", g]))) :=
  ⟨rfl,
   plot_importance_skips_absent m7 "test" "rf" (Or.inr rfl) rfl
     (by
       intro g hg hne
       have : g = "svm" ∨ g = "rf" := by simpa [m7] using hg
       rcases this with h | h
       · exact ⟨svmImportances, by simp [m7, h], by decide⟩
       · exact absurd h hne)⟩

/-- Counterexample for C6: on the two-algorithm classification model `m7`,
`plot_calibration` — a per-algorithm model plot routine — writes a single
file whose tag is the bare partition (`calibration_test.png`), not one file
per algorithm with tag `partition_algorithm` as the claim states. -/
theorem plot_calibration_single_write_cex :
    plot_calibration m7 "test" =
      Except.ok ["/tmp/out/proj1/calibration_test.png"]
    ∧ m7.algolist = ["svm", "rf"]
    ∧ (["/tmp/out/proj1/calibration_test.png"] : List String) ≠
        ["/tmp/out/proj1/calibration_test_svm.png",
         "/tmp/out/proj1/calibration_test_rf.png"] :=
  ⟨rfl, rfl, by decide⟩

/-- C6 amended: the per-algorithm model plot routines ROC curve, confusion
matrix and learning curve delegate to the writer once per algorithm in
`algolist` order with tag `partition + "_" + algorithm`; the
validation-curve routine does the same provided the caller-supplied
hyperparameter range is nonempty (`min(prange)` at line 548 raises first
otherwise), and the feature-importance routine does the same provided every
algorithm has a stored importance vector with at least the `n_top = 10`
ranked entries (otherwise that algorithm is skipped, per C5);
`plot_calibration` instead draws all algorithms into one shared figure and
writes a single file whose tag is the partition alone.  (EDA/time-series
plots use a caller-supplied tag.) -/
theorem per_algo_tag_amended (model : Model) (partition pname : String)
    (prange : List ℚ)
    (hc : model.specs.model_type = ModelType.classification)
    (hp : partition = "train" ∨ partition = "test")
    (hpr : prange ≠ [])
    (hall : ∀ g ∈ model.algolist,
      ∃ v, model.importances g = some v ∧ 10 ≤ v.length) :
    plot_roc_curve model partition =
      Except.ok (model.algolist.map (fun algo =>
        file_all model "roc_curve" (pyJoin USEP [partition, algo])))
    ∧ plot_confusion_matrix model partition =
      Except.ok (model.algolist.map (fun algo =>
        file_all model "confusion" (pyJoin USEP [partition, algo])))
    ∧ plot_learning_curve model partition =
      Except.ok (model.algolist.map (fun algo =>
        file_all model "learning_curve" (pyJoin USEP [partition, algo])))
    ∧ plot_validation_curve model partition pname prange =
      Except.ok (model.algolist.map (fun algo =>
        file_all model "validation_curve" (pyJoin USEP [partition, algo])))
    ∧ plot_importance model partition =
      Except.ok (model.algolist.map (fun algo =>
        file_all model "feature_importance" (pyJoin USEP [partition, algo])))
    ∧ plot_calibration model partition =
      Except.ok [file_all model "calibration" partition] := by
  have hvl := validation_loop_ok model partition prange hpr model.algolist
  have hil := importance_loop_all_present model partition model.algolist hall
  rcases hp with hp | hp <;> subst hp <;>
    exact ⟨by simp [plot_roc_curve, get_partition_data, hc, ok_bind, algo_loop_ok],
           by simp [plot_confusion_matrix, get_partition_data, ok_bind, algo_loop_ok],
           by simp [plot_learning_curve, get_partition_data, ok_bind, algo_loop_ok],
           by simp [plot_validation_curve, get_partition_data, ok_bind, hvl],
           by simp [plot_importance, get_partition_data, ok_bind, hil],
           by simp [plot_calibration, get_partition_data, hc, ok_bind, write_plot]⟩

/-- Witness for the amended C6 at the concrete model `m6` (every algorithm
has a length-10 importance vector), partition `test`, nonempty range. -/
theorem per_algo_tag_amended_witness :
    m6.specs.model_type = ModelType.classification
    ∧ ([(1 : ℚ)] : List ℚ) ≠ []
    ∧ plot_confusion_matrix m6 "test" =
        Except.ok (m6.algolist.map (fun algo =>
          file_all m6 "confusion" (pyJoin USEP ["test", algo])))
    ∧ plot_validation_curve m6 "test" "gamma" [(1 : ℚ)] =
        Except.ok (m6.algolist.map (fun algo =>
          file_all m6 "validation_curve" (pyJoin USEP ["test", algo])))
    ∧ plot_importance m6 "test" =
        Except.ok (m6.algolist.map (fun algo =>
          file_all m6 "feature_importance" (pyJoin USEP ["test", algo])))
    ∧ plot_calibration m6 "test" =
        Except.ok [file_all m6 "calibration" "test"] :=
  have h := per_algo_tag_amended m6 "test" "gamma" [(1 : ℚ)] rfl (Or.inr rfl)
    (by decide)
    (fun g _ => ⟨svmImportances, rfl, by decide⟩)
  ⟨rfl, by decide, h.2.1, h.2.2.2.1, h.2.2.2.2.1, h.2.2.2.2.2⟩

/-- C7: the spec §8 scenario — classification model, `algolist =
["svm", "rf"]`, `base_dir = "/tmp/out"`, `project = "proj1"` —
`plot_roc_curve(model, "test")` writes exactly the two files
`/tmp/out/proj1/roc_curve_test_svm.png` and
`/tmp/out/proj1/roc_curve_test_rf.png`, in `algolist` order. -/
theorem plot_roc_curve_scenario :
    plot_roc_curve m7 "test" =
      Except.ok ["/tmp/out/proj1/roc_curve_test_svm.png",
                 "/tmp/out/proj1/roc_curve_test_rf.png"] := rfl

/-- Away from index 0, the fold loop accumulates the interpolated
true-positive rates on top of the accumulator. -/
theorem rocLoop_apply_ne_zero (k : Fin 100) (hk : k ≠ 0) :
    ∀ (folds : List ROCFold) (acc : Fin 100 → ℚ),
      (folds.foldl rocStep acc) k = acc k + (folds.map (fun f => foldInterp f k)).sum := by
  intro folds
  induction folds with
  | nil => intro acc; simp
  | cons f fs ih =>
    intro acc
    simp only [List.foldl_cons, List.map_cons, List.sum_cons, ih]
    rw [rocStep, Function.update_noteq hk]
    ring

/-- The fold loop keeps index 0 of the accumulator at zero. -/
theorem rocLoop_apply_zero :
    ∀ (folds : List ROCFold) (acc : Fin 100 → ℚ), acc 0 = 0 →
      (folds.foldl rocStep acc) 0 = 0 := by
  intro folds
  induction folds with
  | nil => intro acc h; exact h
  | cons f fs ih =>
    intro acc _
    exact ih (rocStep acc f) (Function.update_same 0 0 _)

/-- C8: the code's mean-ROC curve — accumulate each fold's ROC curve
linearly interpolated onto the fixed 100-point grid `k/99` over `[0, 1]`
(re-zeroing index 0 inside the loop), divide by the configured fold count
`n`, then force the last point to 1.0 — equals, when `n` is the number of
folds, the spec's formulation: sum the interpolated curves, divide by the
number of folds, force the first point to 0.0 and the last to 1.0; and the
mean AUC is the trapezoidal area of that resulting grid/curve pair.  The
grid itself starts at 0 and ends at 1. -/
theorem roc_mean_curve_spec (folds : List ROCFold) (n : Nat)
    (h : n = folds.length) :
    code_mean_tpr folds n = spec_mean_tpr folds
    ∧ code_mean_auc folds n = auc_trapz mean_fpr (spec_mean_tpr folds)
    ∧ mean_fpr 0 = 0 ∧ mean_fpr 99 = 1 := by
  have hmain : code_mean_tpr folds n = spec_mean_tpr folds := by
    funext k
    by_cases h99 : k = (99 : Fin 100)
    · subst h99
      rw [code_mean_tpr, spec_mean_tpr, Function.update_same, Function.update_same]
    · rw [code_mean_tpr, spec_mean_tpr,
        Function.update_noteq h99, Function.update_noteq h99]
      by_cases h0 : k = (0 : Fin 100)
      · subst h0
        rw [rocLoop_apply_zero folds _ rfl, Function.update_same, zero_div]
      · rw [Function.update_noteq h0, rocLoop_apply_ne_zero k h0, h]
        simp
  refine ⟨hmain, ?_, ?_, ?_⟩
  · rw [code_mean_auc, hmain]
  · show ((0 : Fin 100) : ℚ) / 99 = 0
    norm_num
  · show ((99 : Fin 100) : ℚ) / 99 = 1
    norm_num [show ((99 : Fin 100) : ℕ) = 99 from rfl]

/-- Witness for C8 at a single concrete fold with ROC points (0,0)-(1,1)
and matching fold count 1. -/
theorem roc_mean_curve_spec_witness :
    1 = ([({ fpr := [0, 1], tpr := [0, 1] } : ROCFold)]).length
    ∧ (code_mean_tpr [({ fpr := [0, 1], tpr := [0, 1] } : ROCFold)] 1 =
         spec_mean_tpr [({ fpr := [0, 1], tpr := [0, 1] } : ROCFold)]
       ∧ code_mean_auc [({ fpr := [0, 1], tpr := [0, 1] } : ROCFold)] 1 =
         auc_trapz mean_fpr
           (spec_mean_tpr [({ fpr := [0, 1], tpr := [0, 1] } : ROCFold)])
       ∧ mean_fpr 0 = 0 ∧ mean_fpr 99 = 1) :=
  ⟨rfl, roc_mean_curve_spec [({ fpr := [0, 1], tpr := [0, 1] } : ROCFold)] 1 rfl⟩

/-- C9: `plot_scatter` grows the caller's `features` list in place by
appending the target column name before selecting the data subset: after
the call the caller's list is `features ++ [target]` (one element longer,
ending in the target), and the selected frame is taken over that appended
list. -/
theorem plot_scatter_mutates_features (model : Model) (data : String → List ℚ)
    (features : List String) (target tag : String) :
    plot_scatter model data features target tag =
      Except.ok ⟨features ++ [target],
                 (features ++ [target]).map (fun c => (c, data c)),
                 [file_all model "scatter_plot" tag]⟩
    ∧ (features ++ [target]).getLast? = some target
    ∧ (features ++ [target]).length = features.length + 1 := by
  refine ⟨?_, ?_, by simp⟩
  · simp [plot_scatter, write_plot, ok_bind]
  · simp

/-- The per-algorithm save loop never reads the `importances` and
`learning_curve` gating flags. -/
theorem algo_loop_flag_invariant (m : Model) (bi bl : Bool) (pt p : String)
    (l : List String) :
    algo_loop
      { m with specs := { m.specs with importances := bi, learning_curve := bl } }
      pt p l = algo_loop m pt p l := by
  rw [algo_loop_ok, algo_loop_ok]
  rfl

/-- C10: `generate_plots` runs the feature-importance and learning-curve
routines only for the `train` partition — for `test` they are never
invoked (equivalently, the run is unchanged by clearing their flags) —
while the calibration, confusion-matrix and ROC routines are invoked iff
their flag is set, for either partition. -/
theorem generate_plots_partition_gating (model : Model) :
    generate_plots model "test" =
      generate_plots
        { model with specs :=
            { model.specs with importances := false, learning_curve := false } }
        "test"
    ∧ PlotCall.importance ∉ generate_plots_calls model "test"
    ∧ PlotCall.learning ∉ generate_plots_calls model "test"
    ∧ ∀ partition,
        (PlotCall.calibration ∈ generate_plots_calls model partition ↔
          model.specs.calibration_plot = true)
        ∧ (PlotCall.confusion ∈ generate_plots_calls model partition ↔
          model.specs.confusion_matrix = true)
        ∧ (PlotCall.roc ∈ generate_plots_calls model partition ↔
          model.specs.roc_curve = true) := by
  refine ⟨?_, ?_, ?_, ?_⟩
  · have hcal : plot_calibration
        { model with specs :=
            { model.specs with importances := false, learning_curve := false } }
        "test" = plot_calibration model "test" := rfl
    simp only [generate_plots, hcal, plot_confusion_matrix, plot_roc_curve,
      algo_loop_flag_invariant]
    rfl
  · cases hc : model.specs.calibration_plot <;>
      cases hm : model.specs.confusion_matrix <;>
      cases hr : model.specs.roc_curve <;>
      simp [generate_plots_calls, hc, hm, hr]
  · cases hc : model.specs.calibration_plot <;>
      cases hm : model.specs.confusion_matrix <;>
      cases hr : model.specs.roc_curve <;>
      simp [generate_plots_calls, hc, hm, hr]
  · intro partition
    by_cases hp : partition = "train" <;>
      cases hc : model.specs.calibration_plot <;>
      cases hm : model.specs.confusion_matrix <;>
      cases hr : model.specs.roc_curve <;>
      cases hi : model.specs.importances <;>
      cases hl : model.specs.learning_curve <;>
      simp [generate_plots_calls, hp, hc, hm, hr, hi, hl]
